import Mathlib

/-!
Shallow embedding of the DIAP payment-channel program
(src/solana-contracts/programs/diap-payment-channel/src/lib.rs).

Pubkeys are modelled as `Nat`; u64/u16 values as `Nat` with explicit
checked-arithmetic guards at 2^64 where the source uses `checked_add`,
`checked_mul`, `checked_div`; `i64` timestamps as `Int`.  The Solana
clock is passed as an explicit `now : Int` argument to every handler
that reads `Clock::get()`.  Each handler returns `Except ErrorCode _`;
an `Except.error` result models a failed instruction, which leaves all
accounts unchanged.
-/

namespace DiapPaymentChannel

/-- `2 ^ 64`, the number of values of a Rust `u64`. -/
def u64Size : Nat := 18446744073709551616

/-- `u64::checked_add` on `u64` values modelled as `Nat`. -/
def checkedAdd (a b : Nat) : Option Nat :=
  if a + b < u64Size then some (a + b) else none

/-- `u64::checked_mul` on `u64` values modelled as `Nat`. -/
def checkedMul (a b : Nat) : Option Nat :=
  if a * b < u64Size then some (a * b) else none

/-- `u64::checked_div`: fails only on division by zero. -/
def checkedDiv (a b : Nat) : Option Nat :=
  if b = 0 then none else some (a / b)

/-- Unchecked Rust `+` on `u64`: wraps modulo `2 ^ 64` in a default
release build (line 179 of the source uses plain `+`, not
`checked_add`). -/
def wrapAdd (a b : Nat) : Nat := (a + b) % u64Size

/-- The error enum of the program (`ErrorCode` in lib.rs), plus
`ConstraintHasOne`, which models Anchor rejecting the
`has_one = authority` account constraint of `UpdateChannelFeeRate`. -/
inductive ErrorCode where
  | DepositMustBeGreaterThanZero
  | ChannelIDRequired
  | ChannelAlreadyExists
  | CannotOpenChannelWithSelf
  | InvalidParticipantAddress
  | ChannelNotFound
  | ChannelNotActive
  | NotChannelParticipant
  | NonceMustBeGreater
  | InvalidBalanceDistribution
  | NoActiveChallengePeriod
  | ChallengePeriodExpired
  | NewNonceMustBeGreater
  | ChallengePeriodNotEnded
  | InsufficientFunds
  | RateTooHigh
  | MathOverflow
  | MathDivision
  | ConstraintHasOne
  deriving DecidableEq, Repr

/-- The `PaymentChannelProgram` registry account: per-mint singleton
holding the settlement fee rate and the administrative authority. -/
structure PaymentChannelProgram where
  authority : Nat
  token_mint : Nat
  channel_fee_rate : Nat
  deriving DecidableEq, Repr

/-- The `PaymentChannel` account.  The source field `is_initialized`
is named `is_init` here; `bump` is omitted (it only feeds PDA
signing, which the embedding abstracts away). -/
structure PaymentChannel where
  participant1 : Nat
  participant2 : Nat
  balance1 : Nat
  balance2 : Nat
  total_deposited : Nat
  nonce : Nat
  is_active : Bool
  last_update : Int
  challenge_deadline : Int
  channel_id : String
  is_init : Bool
  deriving DecidableEq, Repr

/-- One SPL-token transfer out of the channel vault. -/
structure Payout where
  recipient : Nat
  amount : Nat
  deriving DecidableEq, Repr

/-- `initialize` (lib.rs lines 15-26): creates the registry account.
Note: the handler stores `channel_fee_rate` verbatim, with no cap
check. -/
def initRegistry (authority token_mint channel_fee_rate : Nat) :
    PaymentChannelProgram :=
  { authority := authority
    token_mint := token_mint
    channel_fee_rate := channel_fee_rate }

/-- `open_payment_channel` (lib.rs lines 28-74).  `chan_init` is the
`is_initialized` flag of the channel account before the call; `now` is
`Clock::get()?.unix_timestamp`.  On success returns the created
channel together with the amount moved from participant1's token
account into the channel vault. -/
def open_payment_channel (participant1 participant2 : Nat)
    (deposit : Nat) (channel_id : String) (now : Int)
    (chan_init : Bool) :
    Except ErrorCode (PaymentChannel × Nat) :=
  if ¬ deposit > 0 then .error .DepositMustBeGreaterThanZero
  else if ¬ channel_id.length > 0 then .error .ChannelIDRequired
  else if chan_init then .error .ChannelAlreadyExists
  else if participant2 = participant1 then .error .CannotOpenChannelWithSelf
  else .ok
    ({ participant1 := participant1
       participant2 := participant2
       balance1 := deposit
       balance2 := 0
       total_deposited := deposit
       nonce := 0
       is_active := true
       last_update := now
       challenge_deadline := 0
       channel_id := channel_id
       is_init := true }, deposit)

/-- `initiate_channel_close` (lib.rs lines 76-113). -/
def initiate_channel_close (c : PaymentChannel) (signer : Nat)
    (final_balance1 final_balance2 nonce : Nat) (now : Int) :
    Except ErrorCode PaymentChannel :=
  if ¬ c.is_init then .error .ChannelNotFound
  else if ¬ c.is_active then .error .ChannelNotActive
  else if ¬ (signer = c.participant1 ∨ signer = c.participant2) then
    .error .NotChannelParticipant
  else if ¬ nonce > c.nonce then .error .NonceMustBeGreater
  else
    match checkedAdd final_balance1 final_balance2 with
    | none => .error .MathOverflow
    | some total_final =>
      if ¬ total_final ≤ c.total_deposited then
        .error .InvalidBalanceDistribution
      else .ok
        { c with
          balance1 := final_balance1
          balance2 := final_balance2
          nonce := nonce
          challenge_deadline := now + 24 * 60 * 60 }

/-- `challenge_channel_close` (lib.rs lines 115-156). -/
def challenge_channel_close (c : PaymentChannel) (signer : Nat)
    (new_balance1 new_balance2 new_nonce : Nat) (now : Int) :
    Except ErrorCode PaymentChannel :=
  if ¬ c.is_init then .error .ChannelNotFound
  else if ¬ c.is_active then .error .ChannelNotActive
  else if ¬ c.challenge_deadline > 0 then .error .NoActiveChallengePeriod
  else if ¬ now < c.challenge_deadline then .error .ChallengePeriodExpired
  else if ¬ (signer = c.participant1 ∨ signer = c.participant2) then
    .error .NotChannelParticipant
  else if ¬ new_nonce > c.nonce then .error .NewNonceMustBeGreater
  else
    match checkedAdd new_balance1 new_balance2 with
    | none => .error .MathOverflow
    | some total_new =>
      if ¬ total_new ≤ c.total_deposited then
        .error .InvalidBalanceDistribution
      else .ok
        { c with
          balance1 := new_balance1
          balance2 := new_balance2
          nonce := new_nonce }

/-- The fee computation inside `finalize_channel_close`
(lib.rs lines 169-173): `total_deposited.checked_mul(rate as u64)
.ok_or(MathOverflow)?.checked_div(10000).ok_or(MathDivision)?`. -/
def computeFee (total_deposited channel_fee_rate : Nat) :
    Except ErrorCode Nat :=
  match checkedMul total_deposited channel_fee_rate with
  | none => .error .MathOverflow
  | some p =>
    match checkedDiv p 10000 with
    | none => .error .MathDivision
    | some fee => .ok fee

/-- `finalize_channel_close` (lib.rs lines 158-229).
`channel_fee_rate` is `payment_channel.channel_fee_rate` (a u16).
On success returns the updated channel and the vault payouts
(zero-amount transfers are skipped, lines 188 and 207).  The guard on
line 179 adds `total_to_distribute + fee` with Rust's plain `+`, which
wraps modulo `2 ^ 64` in a default release build: `wrapAdd` models
that faithfully. -/
def finalize_channel_close (c : PaymentChannel)
    (channel_fee_rate : Nat) (now : Int) :
    Except ErrorCode (PaymentChannel × List Payout) :=
  if ¬ c.is_init then .error .ChannelNotFound
  else if ¬ c.is_active then .error .ChannelNotActive
  else if ¬ c.challenge_deadline > 0 then .error .NoActiveChallengePeriod
  else if ¬ now ≥ c.challenge_deadline then .error .ChallengePeriodNotEnded
  else
    match computeFee c.total_deposited channel_fee_rate with
    | .error e => .error e
    | .ok fee =>
      match checkedAdd c.balance1 c.balance2 with
      | none => .error .MathOverflow
      | some total_to_distribute =>
        if ¬ wrapAdd total_to_distribute fee ≤ c.total_deposited then
          .error .InsufficientFunds
        else .ok
          ({ c with is_active := false },
           (if c.balance1 > 0 then
              [{ recipient := c.participant1, amount := c.balance1 }]
            else []) ++
           (if c.balance2 > 0 then
              [{ recipient := c.participant2, amount := c.balance2 }]
            else []))

/-- `set_channel_fee_rate` (lib.rs lines 231-242).  The
`has_one = authority` Anchor constraint on `UpdateChannelFeeRate`
is modelled as the first check. -/
def set_channel_fee_rate (reg : PaymentChannelProgram) (signer : Nat)
    (rate : Nat) : Except ErrorCode PaymentChannelProgram :=
  if ¬ signer = reg.authority then .error .ConstraintHasOne
  else if ¬ rate ≤ 100 then .error .RateTooHigh
  else .ok { reg with channel_fee_rate := rate }

/-- One instruction applied to an existing channel, with its
arguments and the clock value at execution time. -/
inductive ChannelOp where
  | initiateClose (signer final_balance1 final_balance2 nonce : Nat)
      (now : Int)
  | challengeClose (signer new_balance1 new_balance2 new_nonce : Nat)
      (now : Int)
  | finalizeClose (channel_fee_rate : Nat) (now : Int)
  deriving Repr

/-- Applying one instruction to a channel: a failed instruction leaves
the account unchanged. -/
def stepChannel (c : PaymentChannel) (op : ChannelOp) : PaymentChannel :=
  match op with
  | .initiateClose s f1 f2 n now =>
    match initiate_channel_close c s f1 f2 n now with
    | .ok c2 => c2
    | .error _ => c
  | .challengeClose s b1 b2 n now =>
    match challenge_channel_close c s b1 b2 n now with
    | .ok c2 => c2
    | .error _ => c
  | .finalizeClose rate now =>
    match finalize_channel_close c rate now with
    | .ok r => r.1
    | .error _ => c

/-- Channel states reachable from a successful `open_payment_channel`
by any sequence of close/challenge/finalize instructions. -/
inductive ReachableChannel : PaymentChannel → Prop where
  | opened (p1 p2 deposit : Nat) (channel_id : String) (now : Int)
      (c : PaymentChannel) (vaultIn : Nat)
      (h : open_payment_channel p1 p2 deposit channel_id now false =
        .ok (c, vaultIn)) :
      ReachableChannel c
  | step (c : PaymentChannel) (op : ChannelOp)
      (h : ReachableChannel c) : ReachableChannel (stepChannel c op)

/-- Applying one fee-rate update to the registry: a failed instruction
leaves the account unchanged. -/
def stepRegistry (reg : PaymentChannelProgram) (signer rate : Nat) :
    PaymentChannelProgram :=
  match set_channel_fee_rate reg signer rate with
  | .ok r => r
  | .error _ => reg

/-- Registry states reachable from `initialize` by any sequence of
`set_channel_fee_rate` calls. -/
inductive ReachableRegistry : PaymentChannelProgram → Prop where
  | created (authority token_mint channel_fee_rate : Nat) :
      ReachableRegistry (initRegistry authority token_mint channel_fee_rate)
  | step (reg : PaymentChannelProgram) (signer rate : Nat)
      (h : ReachableRegistry reg) :
      ReachableRegistry (stepRegistry reg signer rate)

/-! Concrete states used to exercise the handlers. -/

/-- The u64 maximum, `18446744073709551615`. -/
def u64Max : Nat := 18446744073709551615

/-- The channel created by `open_payment_channel 1 2 1000 "c1"` at time 0. -/
def exampleChannel : PaymentChannel :=
  { participant1 := 1
    participant2 := 2
    balance1 := 1000
    balance2 := 0
    total_deposited := 1000
    nonce := 0
    is_active := true
    last_update := 0
    challenge_deadline := 0
    channel_id := "c1"
    is_init := true }

/-- A closing channel at nonce 3 whose dispute deadline (100) has a
challenge window that can expire. -/
def staleChannel : PaymentChannel :=
  { participant1 := 1
    participant2 := 2
    balance1 := 400
    balance2 := 600
    total_deposited := 1000
    nonce := 3
    is_active := true
    last_update := 0
    challenge_deadline := 100
    channel_id := "c2"
    is_init := true }

/-- A closing channel at nonce 5 with an open dispute window. -/
def staleChannel2 : PaymentChannel :=
  { participant1 := 1
    participant2 := 2
    balance1 := 400
    balance2 := 600
    total_deposited := 1000
    nonce := 5
    is_active := true
    last_update := 0
    challenge_deadline := 100
    channel_id := "c3"
    is_init := true }

/-- A closing channel ready to finalize (deadline 10, split 400+500
of 1000). -/
def closingChannel : PaymentChannel :=
  { participant1 := 1
    participant2 := 2
    balance1 := 400
    balance2 := 500
    total_deposited := 1000
    nonce := 1
    is_active := true
    last_update := 0
    challenge_deadline := 10
    channel_id := "c5"
    is_init := true }

/-- Another closing channel ready to finalize (deadline 20, split
250+700 of 1000). -/
def closingChannel2 : PaymentChannel :=
  { participant1 := 3
    participant2 := 4
    balance1 := 250
    balance2 := 700
    total_deposited := 1000
    nonce := 2
    is_active := true
    last_update := 0
    challenge_deadline := 20
    channel_id := "c10"
    is_init := true }

/-- A closing channel holding the u64-maximal deposit, with the whole
deposit assigned to participant 1. -/
def hugeChannel : PaymentChannel :=
  { participant1 := 1
    participant2 := 2
    balance1 := u64Max
    balance2 := 0
    total_deposited := u64Max
    nonce := 1
    is_active := true
    last_update := 0
    challenge_deadline := 50
    channel_id := "big"
    is_init := true }

/-- A closing channel holding the u64-maximal deposit, split
`u64Max - 1` / `1`. -/
def hugeChannel2 : PaymentChannel :=
  { participant1 := 5
    participant2 := 6
    balance1 := 18446744073709551614
    balance2 := 1
    total_deposited := u64Max
    nonce := 2
    is_active := true
    last_update := 0
    challenge_deadline := 10
    channel_id := "big2"
    is_init := true }

/-! Inversion lemmas: what a successful handler call implies. -/

/-- A successful `open_payment_channel` implies its preconditions and
pins down the created channel and the vault deposit. -/
theorem open_ok_elim {p1 p2 d : Nat} {id : String} {now : Int}
    {ci : Bool} {c : PaymentChannel} {v : Nat}
    (h : open_payment_channel p1 p2 d id now ci = .ok (c, v)) :
    0 < d ∧ 0 < id.length ∧ ci = false ∧ p2 ≠ p1 ∧ v = d ∧
    c = { participant1 := p1
          participant2 := p2
          balance1 := d
          balance2 := 0
          total_deposited := d
          nonce := 0
          is_active := true
          last_update := now
          challenge_deadline := 0
          channel_id := id
          is_init := true } := by
  unfold open_payment_channel at h
  repeat' split at h
  all_goals simp_all
  obtain ⟨hc, hv⟩ := h
  subst hv
  exact ⟨by omega, by omega, hc.symm⟩

/-- A successful `initiate_channel_close` implies its preconditions
and pins down the updated channel. -/
theorem initiate_ok_elim {c : PaymentChannel} {s f1 f2 n : Nat}
    {now : Int} {c2 : PaymentChannel}
    (h : initiate_channel_close c s f1 f2 n now = .ok c2) :
    c.is_init = true ∧ c.is_active = true ∧
    (s = c.participant1 ∨ s = c.participant2) ∧
    c.nonce < n ∧ f1 + f2 < u64Size ∧ f1 + f2 ≤ c.total_deposited ∧
    c2 = { c with
           balance1 := f1
           balance2 := f2
           nonce := n
           challenge_deadline := now + 24 * 60 * 60 } := by
  unfold initiate_channel_close at h
  repeat' split at h
  all_goals simp_all [checkedAdd]
  exact ⟨by tauto, by omega⟩

/-- A successful `challenge_channel_close` implies its preconditions
and pins down the updated channel; in particular the stored
`challenge_deadline` is untouched. -/
theorem challenge_ok_elim {c : PaymentChannel} {s b1 b2 n : Nat}
    {now : Int} {c2 : PaymentChannel}
    (h : challenge_channel_close c s b1 b2 n now = .ok c2) :
    c.is_init = true ∧ c.is_active = true ∧
    0 < c.challenge_deadline ∧ now < c.challenge_deadline ∧
    (s = c.participant1 ∨ s = c.participant2) ∧
    c.nonce < n ∧ b1 + b2 < u64Size ∧ b1 + b2 ≤ c.total_deposited ∧
    c2 = { c with
           balance1 := b1
           balance2 := b2
           nonce := n } := by
  unfold challenge_channel_close at h
  repeat' split at h
  all_goals simp_all [checkedAdd]
  exact ⟨by tauto, by omega⟩

/-- A successful `finalize_channel_close` implies its preconditions
and pins down the updated channel and the payouts. -/
theorem finalize_ok_elim {c : PaymentChannel} {rate : Nat} {now : Int}
    {c2 : PaymentChannel} {ps : List Payout}
    (h : finalize_channel_close c rate now = .ok (c2, ps)) :
    c.is_init = true ∧ c.is_active = true ∧
    0 < c.challenge_deadline ∧ c.challenge_deadline ≤ now ∧
    c.balance1 + c.balance2 < u64Size ∧
    c2 = { c with is_active := false } ∧
    ps = (if c.balance1 > 0 then
            [{ recipient := c.participant1, amount := c.balance1 }]
          else []) ++
         (if c.balance2 > 0 then
            [{ recipient := c.participant2, amount := c.balance2 }]
          else []) := by
  unfold finalize_channel_close computeFee at h
  repeat' split at h
  all_goals simp_all [checkedAdd, checkedMul, checkedDiv]
  all_goals omega

/-- With a stale proposed nonce, `initiate_channel_close` always
fails, whatever the other inputs are. -/
theorem initiate_stale_fails (c : PaymentChannel) (s f1 f2 n : Nat)
    (now : Int) (h : n ≤ c.nonce) :
    ∃ e, initiate_channel_close c s f1 f2 n now = .error e := by
  unfold initiate_channel_close
  repeat' split
  all_goals first
    | exact ⟨_, rfl⟩
    | omega

/-- With a stale proposed nonce, `challenge_channel_close` always
fails, whatever the other inputs (including the clock) are. -/
theorem challenge_stale_fails (c : PaymentChannel) (s b1 b2 n : Nat)
    (now : Int) (h : n ≤ c.nonce) :
    ∃ e, challenge_channel_close c s b1 b2 n now = .error e := by
  unfold challenge_channel_close
  repeat' split
  all_goals first
    | exact ⟨_, rfl⟩
    | omega

/-- When the earlier checks pass, a stale nonce makes
`initiate_channel_close` fail precisely with `NonceMustBeGreater`. -/
theorem initiate_stale_error (c : PaymentChannel) (s f1 f2 n : Nat)
    (now : Int) (h : n ≤ c.nonce) (h1 : c.is_init = true)
    (h2 : c.is_active = true)
    (h3 : s = c.participant1 ∨ s = c.participant2) :
    initiate_channel_close c s f1 f2 n now =
      .error .NonceMustBeGreater := by
  unfold initiate_channel_close
  repeat' split
  all_goals simp_all

/-- When the earlier checks pass, a stale nonce makes
`challenge_channel_close` fail precisely with
`NewNonceMustBeGreater`. -/
theorem challenge_stale_error (c : PaymentChannel) (s b1 b2 n : Nat)
    (now : Int) (h : n ≤ c.nonce) (h1 : c.is_init = true)
    (h2 : c.is_active = true) (h3 : 0 < c.challenge_deadline)
    (h4 : now < c.challenge_deadline)
    (h5 : s = c.participant1 ∨ s = c.participant2) :
    challenge_channel_close c s b1 b2 n now =
      .error .NewNonceMustBeGreater := by
  unfold challenge_channel_close
  repeat' split
  all_goals simp_all

/-- A failed instruction leaves the channel unchanged; the nonce can
only move via the two updates, which both require a strictly larger
one: so no instruction ever decreases the stored nonce. -/
theorem stepChannel_nonce_mono (c : PaymentChannel) (op : ChannelOp) :
    c.nonce ≤ (stepChannel c op).nonce := by
  cases op with
  | initiateClose s f1 f2 n now =>
    simp only [stepChannel]
    cases hr : initiate_channel_close c s f1 f2 n now with
    | error e => exact Nat.le_refl _
    | ok c2 =>
      obtain ⟨-, -, -, hn, -, -, hc2⟩ := initiate_ok_elim hr
      subst hc2
      exact Nat.le_of_lt hn
  | challengeClose s b1 b2 n now =>
    simp only [stepChannel]
    cases hr : challenge_channel_close c s b1 b2 n now with
    | error e => exact Nat.le_refl _
    | ok c2 =>
      obtain ⟨-, -, -, -, -, hn, -, -, hc2⟩ := challenge_ok_elim hr
      subst hc2
      exact Nat.le_of_lt hn
  | finalizeClose rate now =>
    simp only [stepChannel]
    cases hr : finalize_channel_close c rate now with
    | error e => exact Nat.le_refl _
    | ok r =>
      obtain ⟨c2, ps⟩ := r
      obtain ⟨-, -, -, -, -, hc2, -⟩ := finalize_ok_elim hr
      subst hc2
      exact Nat.le_refl _

/-- **C1.** For every channel state reachable by any sequence of
`OpenChannel`, `InitiateClose`, `ChallengeClose` and `FinalizeClose`
operations, `balance1 + balance2 ≤ total_deposited`: opening
establishes it with `deposit + 0`, and the two balance updates only
accept a proposed split whose checked sum is at most
`total_deposited`. -/
theorem reachable_balance_sum_le_total (c : PaymentChannel)
    (h : ReachableChannel c) :
    c.balance1 + c.balance2 ≤ c.total_deposited := by
  induction h with
  | opened p1 p2 d id now c0 v h0 =>
    obtain ⟨-, -, -, -, -, hc⟩ := open_ok_elim h0
    subst hc
    simp
  | step c0 op h0 ih =>
    cases op with
    | initiateClose s f1 f2 n now =>
      simp only [stepChannel]
      cases hr : initiate_channel_close c0 s f1 f2 n now with
      | error e => exact ih
      | ok c2 =>
        obtain ⟨-, -, -, -, -, hle, hc2⟩ := initiate_ok_elim hr
        subst hc2
        simpa using hle
    | challengeClose s b1 b2 n now =>
      simp only [stepChannel]
      cases hr : challenge_channel_close c0 s b1 b2 n now with
      | error e => exact ih
      | ok c2 =>
        obtain ⟨-, -, -, -, -, -, -, hle, hc2⟩ := challenge_ok_elim hr
        subst hc2
        simpa using hle
    | finalizeClose rate now =>
      simp only [stepChannel]
      cases hr : finalize_channel_close c0 rate now with
      | error e => exact ih
      | ok r =>
        obtain ⟨c2, ps⟩ := r
        obtain ⟨-, -, -, -, -, hc2, -⟩ := finalize_ok_elim hr
        subst hc2
        simpa using ih

/-- Witness for C1: the fund-conservation bound evaluated at a
concrete reachable channel. -/
theorem reachable_balance_sum_le_total_witness :
    exampleChannel.balance1 + exampleChannel.balance2 ≤
      exampleChannel.total_deposited :=
  reachable_balance_sum_le_total exampleChannel
    (ReachableChannel.opened 1 2 1000 "c1" 0 exampleChannel 1000 rfl)

/-- **C2 counterexample.** A `ChallengeClose` whose proposed nonce
(1) is below the stored nonce (3), submitted after the dispute window
expired (now = 200 ≥ deadline = 100), is rejected — but with
`ChallengePeriodExpired`, not `NewNonceMustBeGreater`: the timing
check on line 128 of the source runs before the nonce check on line
135, so the advertised error is not produced "regardless of
timing". -/
theorem challenge_stale_error_depends_on_timing :
    (1 : Nat) ≤ staleChannel.nonce ∧
    challenge_channel_close staleChannel 1 10 10 1 200 =
      .error .ChallengePeriodExpired ∧
    ErrorCode.ChallengePeriodExpired ≠ ErrorCode.NewNonceMustBeGreater ∧
    ErrorCode.ChallengePeriodExpired ≠ ErrorCode.NonceMustBeGreater :=
  ⟨by decide, rfl, by decide, by decide⟩

/-- **C2 (amended).** The channel's nonce never decreases under any
instruction; every successful `InitiateClose`/`ChallengeClose`
strictly increases it; a call whose proposed nonce is at most the
stored nonce always fails and leaves the channel unchanged,
regardless of timing — and fails precisely with `NonceMustBeGreater`
(resp. `NewNonceMustBeGreater`) when the checks that precede the
nonce check pass. -/
theorem version_monotone_and_stale_rejected (c : PaymentChannel)
    (op : ChannelOp) (s b1 b2 n : Nat) (now : Int) :
    c.nonce ≤ (stepChannel c op).nonce ∧
    (∀ c2, initiate_channel_close c s b1 b2 n now = .ok c2 →
      c.nonce < c2.nonce) ∧
    (∀ c2, challenge_channel_close c s b1 b2 n now = .ok c2 →
      c.nonce < c2.nonce) ∧
    (n ≤ c.nonce →
      (∃ e, initiate_channel_close c s b1 b2 n now = .error e) ∧
      (∃ e, challenge_channel_close c s b1 b2 n now = .error e) ∧
      stepChannel c (ChannelOp.initiateClose s b1 b2 n now) = c ∧
      stepChannel c (ChannelOp.challengeClose s b1 b2 n now) = c) ∧
    (n ≤ c.nonce → c.is_init = true → c.is_active = true →
      (s = c.participant1 ∨ s = c.participant2) →
      initiate_channel_close c s b1 b2 n now =
        .error .NonceMustBeGreater) ∧
    (n ≤ c.nonce → c.is_init = true → c.is_active = true →
      0 < c.challenge_deadline → now < c.challenge_deadline →
      (s = c.participant1 ∨ s = c.participant2) →
      challenge_channel_close c s b1 b2 n now =
        .error .NewNonceMustBeGreater) := by
  refine ⟨stepChannel_nonce_mono c op, ?_, ?_, ?_, ?_, ?_⟩
  · intro c2 h
    obtain ⟨-, -, -, hn, -, -, hc2⟩ := initiate_ok_elim h
    subst hc2
    exact hn
  · intro c2 h
    obtain ⟨-, -, -, -, -, hn, -, -, hc2⟩ := challenge_ok_elim h
    subst hc2
    exact hn
  · intro hn
    obtain ⟨e1, he1⟩ := initiate_stale_fails c s b1 b2 n now hn
    obtain ⟨e2, he2⟩ := challenge_stale_fails c s b1 b2 n now hn
    refine ⟨⟨e1, he1⟩, ⟨e2, he2⟩, ?_, ?_⟩
    · simp [stepChannel, he1]
    · simp [stepChannel, he2]
  · exact fun hn h1 h2 h3 =>
      initiate_stale_error c s b1 b2 n now hn h1 h2 h3
  · exact fun hn h1 h2 h3 h4 h5 =>
      challenge_stale_error c s b1 b2 n now hn h1 h2 h3 h4 h5

/-- Witness for C2 (amended): on a concrete closing channel at nonce
5 with the window still open, a challenge re-using nonce 5 fails with
`NewNonceMustBeGreater`. -/
theorem version_monotone_and_stale_rejected_witness :
    challenge_channel_close staleChannel2 1 400 600 5 50 =
      .error .NewNonceMustBeGreater :=
  (version_monotone_and_stale_rejected staleChannel2
      (ChannelOp.finalizeClose 0 0) 1 400 600 5 50).2.2.2.2.2
    (by decide) rfl rfl (by decide) (by decide) (Or.inl rfl)

/-- **C3 (code bug).** At the u64-maximal deposit with fee rate 1,
the stored balances sum exactly to `total_deposited` and the fee is
positive, so the claimed guard `balance1 + balance2 + fee ≤
total_deposited` must fail with `InsufficientFunds` — but the source
computes the guard's left side with an unchecked `+` (line 179),
which wraps modulo `2 ^ 64`, so `finalize_channel_close` instead
succeeds and pays out the whole deposit. -/
theorem finalize_fee_guard_overflow_payout :
    hugeChannel.balance1 + hugeChannel.balance2 =
      hugeChannel.total_deposited ∧
    computeFee hugeChannel.total_deposited 1 = .ok 1844674407370955 ∧
    (0 : Nat) < 1844674407370955 ∧
    hugeChannel.total_deposited <
      hugeChannel.balance1 + hugeChannel.balance2 + 1844674407370955 ∧
    finalize_channel_close hugeChannel 1 100 =
      .ok ({ hugeChannel with is_active := false },
        [{ recipient := 1, amount := 18446744073709551615 }]) :=
  ⟨by decide, rfl, by decide, by decide, rfl⟩

/-- **C4.** Every successful `InitiateClose` sets the dispute
deadline to the call-time clock plus the fixed 24-hour window, so
repeated calls each reset a fresh full window; a successful
`ChallengeClose` updates balances and nonce but leaves the stored
deadline exactly as it was. -/
theorem deadline_reset_and_frame (c : PaymentChannel)
    (s f1 f2 n b1 b2 m : Nat) (now now2 : Int) :
    (∀ c2, initiate_channel_close c s f1 f2 n now = .ok c2 →
      c2.challenge_deadline = now + 24 * 60 * 60) ∧
    (∀ c2, challenge_channel_close c s b1 b2 m now2 = .ok c2 →
      c2.challenge_deadline = c.challenge_deadline ∧
      c2.balance1 = b1 ∧ c2.balance2 = b2 ∧ c2.nonce = m) := by
  constructor
  · intro c2 h
    obtain ⟨-, -, -, -, -, -, hc2⟩ := initiate_ok_elim h
    subst hc2
    rfl
  · intro c2 h
    obtain ⟨-, -, -, -, -, -, -, -, hc2⟩ := challenge_ok_elim h
    subst hc2
    exact ⟨rfl, rfl, rfl, rfl⟩

/-- Witness for C4: a concrete `InitiateClose` at time 7 stamps the
deadline `7 + 24 * 60 * 60`. -/
theorem deadline_reset_and_frame_witness :
    ({ exampleChannel with
       balance1 := 400
       balance2 := 600
       nonce := 1
       challenge_deadline := 86407 } : PaymentChannel).challenge_deadline =
      7 + 24 * 60 * 60 :=
  (deadline_reset_and_frame exampleChannel 1 400 600 1 400 600 1 7 7).1
    _ rfl

/-- A finalized (inactive) but still initialized channel makes
`finalize_channel_close` fail with `ChannelNotActive`. -/
theorem finalize_inactive_fails (c : PaymentChannel) (rate : Nat)
    (now : Int) (h1 : c.is_init = true) (h2 : c.is_active = false) :
    finalize_channel_close c rate now = .error .ChannelNotActive := by
  unfold finalize_channel_close
  simp [h1, h2]

/-- **C5.** `FinalizeClose` succeeds at most once per channel: a
successful call leaves `is_active = false`, and any second call on
the resulting channel fails with `ChannelNotActive` and changes
nothing, for every fee rate and clock value. -/
theorem finalize_at_most_once (c c2 : PaymentChannel)
    (ps : List Payout) (rate rate2 : Nat) (now now2 : Int)
    (h : finalize_channel_close c rate now = .ok (c2, ps)) :
    c2.is_active = false ∧
    finalize_channel_close c2 rate2 now2 = .error .ChannelNotActive ∧
    stepChannel c2 (ChannelOp.finalizeClose rate2 now2) = c2 := by
  obtain ⟨hi, -, -, -, -, hc2, -⟩ := finalize_ok_elim h
  subst hc2
  refine ⟨rfl, ?_, ?_⟩
  · exact finalize_inactive_fails { c with is_active := false }
      rate2 now2 hi rfl
  · simp [stepChannel, finalize_inactive_fails { c with is_active := false }
      rate2 now2 hi rfl]

/-- Witness for C5: after finalizing a concrete closing channel, a
second finalize attempt fails with `ChannelNotActive`. -/
theorem finalize_at_most_once_witness :
    finalize_channel_close { closingChannel with is_active := false }
      50 99 = .error .ChannelNotActive :=
  (finalize_at_most_once closingChannel
      { closingChannel with is_active := false }
      [{ recipient := 1, amount := 400 }, { recipient := 2, amount := 500 }]
      50 50 10 99 rfl).2.1

/-- A successful `set_channel_fee_rate` implies the authority check
and the 100 bps cap, and pins down the updated registry. -/
theorem set_fee_ok_elim {reg : PaymentChannelProgram}
    {signer rate : Nat} {reg2 : PaymentChannelProgram}
    (h : set_channel_fee_rate reg signer rate = .ok reg2) :
    signer = reg.authority ∧ rate ≤ 100 ∧
    reg2 = { reg with channel_fee_rate := rate } := by
  unfold set_channel_fee_rate at h
  repeat' split at h
  all_goals simp_all

/-- **C6 counterexample.** `initialize` performs no cap check:
creating the registry with rate 150 yields a reachable registry state
whose stored fee rate exceeds 100 basis points. -/
theorem registry_created_above_cap :
    ReachableRegistry (initRegistry 7 9 150) ∧
    (initRegistry 7 9 150).channel_fee_rate = 150 ∧
    ¬ (initRegistry 7 9 150).channel_fee_rate ≤ 100 :=
  ⟨ReachableRegistry.created 7 9 150, rfl, by decide⟩

/-- **C6 (amended).** `set_channel_fee_rate` rejects every rate above
100 with `RateTooHigh`, every rate it accepts is at most 100, and a
fee-rate update step preserves the 100 bps bound — but `initialize`
stores its argument verbatim with no cap, so the bound holds in every
reachable registry state only when the creation-time rate is at most
100. -/
theorem fee_rate_cap (reg : PaymentChannelProgram)
    (signer rate a m r : Nat) :
    (initRegistry a m r).channel_fee_rate = r ∧
    (¬ rate ≤ 100 → signer = reg.authority →
      set_channel_fee_rate reg signer rate = .error .RateTooHigh) ∧
    (∀ reg2, set_channel_fee_rate reg signer rate = .ok reg2 →
      reg2.channel_fee_rate ≤ 100) ∧
    (reg.channel_fee_rate ≤ 100 →
      (stepRegistry reg signer rate).channel_fee_rate ≤ 100) := by
  refine ⟨rfl, ?_, ?_, ?_⟩
  · intro hr hs
    unfold set_channel_fee_rate
    simp [hs, hr]
  · intro reg2 h
    obtain ⟨-, hr, hreg2⟩ := set_fee_ok_elim h
    subst hreg2
    exact hr
  · intro hb
    unfold stepRegistry
    cases hr : set_channel_fee_rate reg signer rate with
    | error e => exact hb
    | ok reg2 =>
      obtain ⟨-, hr2, hreg2⟩ := set_fee_ok_elim hr
      subst hreg2
      exact hr2

/-- Witness for C6 (amended): `SetFeeRate(150)` by the authority on a
concrete registry fails with `RateTooHigh`. -/
theorem fee_rate_cap_witness :
    set_channel_fee_rate (initRegistry 7 9 50) 7 150 =
      .error .RateTooHigh :=
  (fee_rate_cap (initRegistry 7 9 50) 7 150 7 9 50).2.1 (by decide) rfl

/-- **C7 (code bug).** The sum `balance1 + balance2 + fee` inside
`finalize_channel_close` is NOT overflow-checked: with the
u64-maximal deposit split `u64Max - 1` / `1` and fee rate 1, the
mathematical sum reaches `2 ^ 64 + 1844674407370954`, yet the
operation raises no arithmetic error — the unchecked `+` of line 179
wraps and the call succeeds, paying out both balances. -/
theorem finalize_sum_not_overflow_checked :
    u64Size ≤ hugeChannel2.balance1 + hugeChannel2.balance2 +
      1844674407370955 ∧
    computeFee hugeChannel2.total_deposited 1 = .ok 1844674407370955 ∧
    finalize_channel_close hugeChannel2 1 10 =
      .ok ({ hugeChannel2 with is_active := false },
        [{ recipient := 5, amount := 18446744073709551614 },
         { recipient := 6, amount := 1 }]) :=
  ⟨by decide, rfl, rfl⟩

/-- **C8 counterexample.** An empty channel id is rejected with
`ChannelIDRequired` (source line 35), an error distinct from the
`ChannelAlreadyExists` raised for an already-initialized id (line
36): no single in-use-id error covers both situations as the claim
states. -/
theorem open_empty_id_error_distinct :
    open_payment_channel 1 2 5 "" 0 false = .error .ChannelIDRequired ∧
    open_payment_channel 1 2 5 "c1" 0 true =
      .error .ChannelAlreadyExists ∧
    ErrorCode.ChannelIDRequired ≠ ErrorCode.ChannelAlreadyExists :=
  ⟨rfl, rfl, by decide⟩

/-- **C8 (amended).** A successful `OpenChannel` creates a channel
with `balance1 = deposit`, `balance2 = 0`, `total_deposited =
deposit`, nonce 0 and status Open (`is_active`, no deadline), moving
`deposit` into the vault; it fails with
`DepositMustBeGreaterThanZero` when the deposit is 0, with
`ChannelIDRequired` when the id is empty, with
`ChannelAlreadyExists` when the id is already initialized, and with
`CannotOpenChannelWithSelf` when `participant2` equals the caller —
creating nothing in each failure case. -/
theorem open_channel_spec (p1 p2 d : Nat) (id : String) (now : Int)
    (ci : Bool) :
    (d = 0 → open_payment_channel p1 p2 d id now ci =
      .error .DepositMustBeGreaterThanZero) ∧
    (0 < d → id.length = 0 → open_payment_channel p1 p2 d id now ci =
      .error .ChannelIDRequired) ∧
    (0 < d → 0 < id.length → ci = true →
      open_payment_channel p1 p2 d id now ci =
        .error .ChannelAlreadyExists) ∧
    (0 < d → 0 < id.length → ci = false → p2 = p1 →
      open_payment_channel p1 p2 d id now ci =
        .error .CannotOpenChannelWithSelf) ∧
    (0 < d → 0 < id.length → ci = false → p2 ≠ p1 →
      open_payment_channel p1 p2 d id now ci =
        .ok ({ participant1 := p1
               participant2 := p2
               balance1 := d
               balance2 := 0
               total_deposited := d
               nonce := 0
               is_active := true
               last_update := now
               challenge_deadline := 0
               channel_id := id
               is_init := true }, d)) := by
  unfold open_payment_channel
  refine ⟨?_, ?_, ?_, ?_, ?_⟩ <;> intros <;> simp_all

/-- Witness for C8 (amended): the concrete success scenario
`OpenChannel(2, 1000, "c1")` called by participant 1. -/
theorem open_channel_spec_witness :
    open_payment_channel 1 2 1000 "c1" 0 false =
      .ok (exampleChannel, 1000) :=
  (open_channel_spec 1 2 1000 "c1" 0 false).2.2.2.2 (by decide)
    (by decide) rfl (by decide)

/-- **C9 counterexample.** The fee computation is not the total
function `floor(total * rate / 10000)`: at `total = u64Max` and
`rate = 2` the checked multiply overflows u64 and the code aborts
with `MathOverflow`, while the claimed formula is well defined
(it equals 3689348814741910). -/
theorem fee_not_total_function :
    computeFee 18446744073709551615 2 = .error .MathOverflow ∧
    18446744073709551615 * 2 / 10000 = 3689348814741910 ∧
    (Except.error ErrorCode.MathOverflow : Except ErrorCode Nat) ≠
      .ok 3689348814741910 :=
  ⟨rfl, by decide, fun h => Except.noConfusion h⟩

/-- **C9 (amended).** The settlement fee computation is a pure
deterministic function of `total_deposited` and `fee_rate_bps`:
whenever `total * rate` fits in a u64 it returns exactly
`floor(total * rate / 10000)` (integer truncation), otherwise it
aborts with `MathOverflow`; every value it ever returns equals the
floor formula. -/
theorem fee_pure_function (total rate : Nat) :
    (total * rate < u64Size →
      computeFee total rate = .ok (total * rate / 10000)) ∧
    (u64Size ≤ total * rate →
      computeFee total rate = .error .MathOverflow) ∧
    (∀ f, computeFee total rate = .ok f →
      f = total * rate / 10000) := by
  refine ⟨?_, ?_, ?_⟩
  · intro h
    unfold computeFee checkedMul checkedDiv
    rw [if_pos h]
    rfl
  · intro h
    unfold computeFee checkedMul
    rw [if_neg (by omega)]
  · intro f h
    unfold computeFee checkedMul checkedDiv at h
    repeat' split at h
    all_goals simp_all

/-- Witness for C9 (amended): a 50 bps fee on a 1000 deposit is
`floor(1000 * 50 / 10000) = 5`. -/
theorem fee_pure_function_witness :
    computeFee 1000 50 = .ok (1000 * 50 / 10000) :=
  (fee_pure_function 1000 50).1 (by decide)

/-- **C10.** A successful `FinalizeClose` changes only the status
field (`is_active := false`): participants, balances,
`total_deposited`, nonce, deadline, id and `last_update` are exactly
as before the call, and the vault transfers are exactly `balance1` to
participant 1 and `balance2` to participant 2 (skipping zero
amounts) — no transfer is made for the fee. -/
theorem finalize_frame (c c2 : PaymentChannel) (ps : List Payout)
    (rate : Nat) (now : Int)
    (h : finalize_channel_close c rate now = .ok (c2, ps)) :
    c2.participant1 = c.participant1 ∧
    c2.participant2 = c.participant2 ∧
    c2.balance1 = c.balance1 ∧ c2.balance2 = c.balance2 ∧
    c2.total_deposited = c.total_deposited ∧ c2.nonce = c.nonce ∧
    c2.challenge_deadline = c.challenge_deadline ∧
    c2.channel_id = c.channel_id ∧ c2.last_update = c.last_update ∧
    c2.is_init = c.is_init ∧ c2.is_active = false ∧
    ps = (if c.balance1 > 0 then
            [{ recipient := c.participant1, amount := c.balance1 }]
          else []) ++
         (if c.balance2 > 0 then
            [{ recipient := c.participant2, amount := c.balance2 }]
          else []) := by
  obtain ⟨-, -, -, -, -, hc2, hps⟩ := finalize_ok_elim h
  subst hc2
  exact ⟨rfl, rfl, rfl, rfl, rfl, rfl, rfl, rfl, rfl, rfl, rfl, hps⟩

/-- Witness for C10: finalizing a concrete closing channel pays
exactly 250 to participant 3 and 700 to participant 4. -/
theorem finalize_frame_witness :
    ([{ recipient := 3, amount := 250 },
      { recipient := 4, amount := 700 }] : List Payout) =
      (if closingChannel2.balance1 > 0 then
         [{ recipient := closingChannel2.participant1,
            amount := closingChannel2.balance1 }]
       else []) ++
      (if closingChannel2.balance2 > 0 then
         [{ recipient := closingChannel2.participant2,
            amount := closingChannel2.balance2 }]
       else []) :=
  (finalize_frame closingChannel2
      { closingChannel2 with is_active := false }
      [{ recipient := 3, amount := 250 },
       { recipient := 4, amount := 700 }]
      5 25 rfl).2.2.2.2.2.2.2.2.2.2.2

end DiapPaymentChannel
